import Mathlib

/-!
Shallow embedding of the Polly API client (TypeScript):
  src/lib/poll-api.ts        — combined module: submitVote, fetchPollResults
  src/submitVote.ts          — standalone copy of submitVote
  src/fetchPollResults.ts    — standalone copy of fetchPollResults

The embedding models:
  * JSON values as produced by `response.json()` / consumed by `JSON.stringify`;
  * JavaScript thrown values, split by `instanceof Error`;
  * the `fetch` transport as an oracle `Request → FetchOutcome`;
  * `parseInt(s, 10)` (ECMA-262: skip whitespace, optional sign, longest
    digit prefix, NaN when no digits — NaN is modelled as `none`);
  * the shared try/catch error-normalization logic that each source
    function inlines verbatim (identical text in all three files).

An async function's settled state is `Except JsValue Json`: `.ok v` for a
resolved value, `.error e` for a rejection carrying the thrown value.
-/

/-- A JSON value, as returned by `response.json()`.  Numbers are modelled
as integers (all payloads in the wire contract are integer-valued). -/
inductive Json where
  | null : Json
  | bool (b : Bool) : Json
  | num (n : Int) : Json
  | str (s : String) : Json
  | arr (xs : List Json) : Json
  | obj (fields : List (String × Json)) : Json

/-- A JavaScript thrown value.  `error m` is a value with
`instanceof Error = true` and `message = m`; `other s` is any non-Error
thrown value whose `String(·)` conversion is `s`. -/
inductive JsValue where
  | error (message : String) : JsValue
  | other (repr : String) : JsValue
deriving Repr, DecidableEq

/-- JavaScript truthiness of a JSON value (`if (errorData.detail)`):
`null`, `false`, `0` and `""` are falsy; arrays and objects are truthy. -/
def Json.truthy : Json → Bool
  | .null => false
  | .bool b => b
  | .num n => n != 0
  | .str s => s ≠ ""
  | .arr _ => true
  | .obj _ => true

mutual
/-- JavaScript `String(·)` conversion of a JSON value, as applied by the
`Error` constructor to a non-string `message` argument. -/
def jsToString : Json → String
  | .null => "null"
  | .bool true => "true"
  | .bool false => "false"
  | .num n => toString n
  | .str s => s
  | .arr xs => jsToStringArr xs
  | .obj _ => "[object Object]"

/-- Conversion of an array: `Array.prototype.toString` is `join(",")`,
under which `null` elements become the empty string. -/
def jsToStringArr : List Json → String
  | [] => ""
  | [Json.null] => ""
  | [x] => jsToString x
  | Json.null :: x :: xs => "," ++ jsToStringArr (x :: xs)
  | x :: y :: xs => jsToString x ++ "," ++ jsToStringArr (y :: xs)
end

/-- An HTTP request as assembled for `fetch(url, options)`. -/
structure Request where
  url : String
  method : String
  headers : List (String × String)
  body : Option String
deriving Repr, DecidableEq

/-- An HTTP response as seen through the `fetch` Response object.
`jsonResult` is the settled state of `response.json()`: `.ok v` when the
body decodes to the JSON value `v`, `.error e` when decoding throws `e`
(for a non-JSON body this is a `SyntaxError`, an Error instance). -/
structure Response where
  ok : Bool
  status : Nat
  statusText : String
  jsonResult : Except JsValue Json

/-- The outcome of one `fetch` call: either the promise rejects with a
thrown value (transport failure) or it resolves with a response. -/
inductive FetchOutcome where
  | throw (e : JsValue) : FetchOutcome
  | response (r : Response) : FetchOutcome

/-- Property access `errorData.detail` on the decoded error body:
throws a TypeError (an Error instance) when the base is `null`; yields
the field on an object (`none` is the JS value `undefined` when absent);
yields `undefined` on any other primitive or array. -/
def getDetail : Json → Except JsValue (Option Json)
  | .null => .error (.error "Cannot read properties of null (reading detail)")
  | .obj fields => .ok (fields.lookup "detail")
  | _ => .ok none

/-- The non-success branch shared verbatim by all three source files:
`errorMessage` starts as the fallback `HTTP {status}: {statusText}`; an
inner try decodes the body and, when `errorData.detail` is truthy,
replaces the message with that value (stringified by the Error
constructor); any throw inside the inner try is swallowed. -/
def errorMessageFor (r : Response) : String :=
  let fallback := "HTTP " ++ toString r.status ++ ": " ++ r.statusText
  match r.jsonResult with
  | .error _ => fallback
  | .ok errorData =>
    match getDetail errorData with
    | .error _ => fallback
    | .ok none => fallback
    | .ok (some d) => if d.truthy then jsToString d else fallback

/-- The body of the outer `try` block, given the outcome of the single
`fetch` call: a transport throw propagates; a non-ok response throws
`new Error(errorMessageFor r)`; an ok response returns `response.json()`
(whose own throw, if any, propagates). -/
def tryBody : FetchOutcome → Except JsValue Json
  | .throw e => .error e
  | .response r =>
    if r.ok then r.jsonResult
    else .error (.error (errorMessageFor r))

/-- The outer `catch` block shared verbatim by all three source files:
`if (error instanceof Error) throw error;` re-throws Error instances
unchanged; any other thrown value is wrapped as
`new Error("Network error: " + String(error))`. -/
def catchWrap : Except JsValue Json → Except JsValue Json
  | .ok v => .ok v
  | .error (.error m) => .error (.error m)
  | .error (.other s) => .error (.error ("Network error: " ++ s))

/-- JS whitespace recognized by `parseInt` (ECMA-262 StrWhiteSpace,
ASCII part). -/
def isJsWhitespace (c : Char) : Bool :=
  c = ' ' || c = '\t' || c = '\n' || c = '\r' || c = '\x0b' || c = '\x0c'

/-- Numeric value of a decimal digit character. -/
def digitVal (c : Char) : Nat := c.toNat - 48

/-- Value of a list of decimal digit characters, most significant first. -/
def digitsToNat (ds : List Char) : Nat :=
  ds.foldl (fun a c => a * 10 + digitVal c) 0

/-- After sign handling, `parseInt` takes the longest prefix of decimal
digits; no digits means NaN (`none`). -/
def parseIntDigits (cs : List Char) (sign : Int) : Option Int :=
  let ds := cs.takeWhile Char.isDigit
  if ds.isEmpty then none else some (sign * (digitsToNat ds : Int))

/-- Model of `parseInt(s, 10)`: skip leading whitespace, read an optional
sign, then the longest decimal-digit prefix; `none` models NaN. -/
def parseInt10 (s : String) : Option Int :=
  match s.toList.dropWhile isJsWhitespace with
  | [] => none
  | c :: rest =>
    if c = '-' then parseIntDigits rest (-1)
    else if c = '+' then parseIntDigits rest 1
    else parseIntDigits (c :: rest) 1

/-- Serialization `JSON.stringify(requestBody)` for the request body
`\x7b option_id: parseInt(optionId, 10) \x7d`: a NaN number field
serializes as `null`. -/
def stringifyVoteRequest (oid : Option Int) : String :=
  "\x7b\"option_id\":" ++ (match oid with
    | some n => toString n
    | none => "null") ++ "\x7d"

namespace PollApi

/-- The request assembled by `submitVote` in src/lib/poll-api.ts
(lines 32-46): POST to the vote URL with Content-Type and Authorization
headers and the stringified vote body. -/
def submitVoteRequest (pollId optionId token : String) : Request :=
  { url := "http://localhost:8000/polls/" ++ pollId ++ "/vote"
    method := "POST"
    headers := [("Content-Type", "application/json"),
                ("Authorization", "Bearer " ++ token)]
    body := some (stringifyVoteRequest (parseInt10 optionId)) }

/-- Function `submitVote` from src/lib/poll-api.ts, instrumented with the
list of requests handed to `fetch` (the function has a single `fetch`
call site). -/
def submitVoteTrace (transport : Request → FetchOutcome)
    (pollId optionId token : String) : Except JsValue Json × List Request :=
  let req := submitVoteRequest pollId optionId token
  (catchWrap (tryBody (transport req)), [req])

/-- Function `submitVote(pollId, optionId, token)` from
src/lib/poll-api.ts: the settled state of the returned promise. -/
def submitVote (transport : Request → FetchOutcome)
    (pollId optionId token : String) : Except JsValue Json :=
  (submitVoteTrace transport pollId optionId token).1

/-- The request assembled by `fetchPollResults` in src/lib/poll-api.ts
(lines 102-110): GET to the results URL, Content-Type header only,
no body. -/
def fetchPollResultsRequest (pollId : String) : Request :=
  { url := "http://localhost:8000/polls/" ++ pollId ++ "/results"
    method := "GET"
    headers := [("Content-Type", "application/json")]
    body := none }

/-- Function `fetchPollResults` from src/lib/poll-api.ts, instrumented
with the list of requests handed to `fetch` (single `fetch` call site). -/
def fetchPollResultsTrace (transport : Request → FetchOutcome)
    (pollId : String) : Except JsValue Json × List Request :=
  let req := fetchPollResultsRequest pollId
  (catchWrap (tryBody (transport req)), [req])

/-- Function `fetchPollResults(pollId)` from src/lib/poll-api.ts: the
settled state of the returned promise. -/
def fetchPollResults (transport : Request → FetchOutcome)
    (pollId : String) : Except JsValue Json :=
  (fetchPollResultsTrace transport pollId).1

end PollApi

namespace SubmitVoteFile

/-- The request assembled by `submitVote` in src/submitVote.ts
(lines 25-39), byte-identical to the combined module's. -/
def submitVoteRequest (pollId optionId token : String) : Request :=
  { url := "http://localhost:8000/polls/" ++ pollId ++ "/vote"
    method := "POST"
    headers := [("Content-Type", "application/json"),
                ("Authorization", "Bearer " ++ token)]
    body := some (stringifyVoteRequest (parseInt10 optionId)) }

/-- Function `submitVote(pollId, optionId, token)` from
src/submitVote.ts. -/
def submitVote (transport : Request → FetchOutcome)
    (pollId optionId token : String) : Except JsValue Json :=
  catchWrap (tryBody (transport (submitVoteRequest pollId optionId token)))

end SubmitVoteFile

namespace FetchPollResultsFile

/-- The request assembled by `fetchPollResults` in src/fetchPollResults.ts
(lines 24-32), byte-identical to the combined module's. -/
def fetchPollResultsRequest (pollId : String) : Request :=
  { url := "http://localhost:8000/polls/" ++ pollId ++ "/results"
    method := "GET"
    headers := [("Content-Type", "application/json")]
    body := none }

/-- Function `fetchPollResults(pollId)` from src/fetchPollResults.ts. -/
def fetchPollResults (transport : Request → FetchOutcome)
    (pollId : String) : Except JsValue Json :=
  catchWrap (tryBody (transport (fetchPollResultsRequest pollId)))

end FetchPollResultsFile

/-- Field lookup on a decoded JSON object (used to read `option_id`,
`poll_id`, `question`, `results` off a payload). -/
def Json.lookupField : Json → String → Option Json
  | .obj fields, k => fields.lookup k
  | _, _ => none

/-- The `detail` value the non-success branch ends up inspecting:
`some d` exactly when the body decodes and `errorData.detail` evaluates
to the JSON value `d` without throwing; `none` otherwise. -/
def detailOf (r : Response) : Option Json :=
  match r.jsonResult with
  | .error _ => none
  | .ok j =>
    match getDetail j with
    | .error _ => none
    | .ok od => od

/-- A 404 response whose body is the JSON object with a
`detail` field equal to the string "Poll not found". -/
def resp404 : Response :=
  { ok := false, status := 404, statusText := "Not Found"
    jsonResult := .ok (.obj [("detail", .str "Poll not found")]) }

/-- A 500 response with a non-JSON body: `response.json()` throws. -/
def resp500 : Response :=
  { ok := false, status := 500, statusText := "Internal Server Error"
    jsonResult := .error (.error "Unexpected token I in JSON at position 0") }

/-- A successful vote response carrying a VoteRecord payload. -/
def voteOkResponse : Response :=
  { ok := true, status := 200, statusText := "OK"
    jsonResult := .ok (.obj [("id", .num 1), ("user_id", .num 7),
      ("option_id", .num 456), ("created_at", .str "2025-01-01T00:00:00Z")]) }

/-- A PollResults payload with two option tallies in server order. -/
def resultsPayload : Json :=
  .obj [("poll_id", .num 123), ("question", .str "Favorite color?"),
    ("results", .arr
      [.obj [("option_id", .num 1), ("text", .str "Red"), ("vote_count", .num 10)],
       .obj [("option_id", .num 2), ("text", .str "Blue"), ("vote_count", .num 3)]])]

/-- A successful results response carrying `resultsPayload`. -/
def resultsOkResponse : Response :=
  { ok := true, status := 200, statusText := "OK", jsonResult := .ok resultsPayload }

/-- A successful (ok) response whose body fails to decode:
`response.json()` throws a SyntaxError inside the outer try block. -/
def jsonSyntaxErrorResponse : Response :=
  { ok := true, status := 200, statusText := "OK"
    jsonResult := .error (.error "Unexpected end of JSON input") }

/-- The error message of the non-success branch, rephrased through
`detailOf`: the detail value when it is truthy, the fallback otherwise. -/
theorem errorMessageFor_eq (r : Response) :
    errorMessageFor r =
      match detailOf r with
      | some d => if d.truthy then jsToString d
                  else "HTTP " ++ toString r.status ++ ": " ++ r.statusText
      | none => "HTTP " ++ toString r.status ++ ": " ++ r.statusText := by
  unfold errorMessageFor detailOf
  rcases hr : r.jsonResult with e | j
  · rfl
  · rcases hg : getDetail j with e | od
    · simp only [hg]
    · rcases od with _ | d <;> simp only [hg]

/-- Dropping while a predicate holds skips a block on which it holds
everywhere. -/
theorem dropWhile_append_all (q : Char → Bool) (l r : List Char)
    (h : ∀ c ∈ l, q c = true) :
    List.dropWhile q (l ++ r) = List.dropWhile q r := by
  induction l with
  | nil => rfl
  | cons a l ih =>
    have ha : q a = true := h a (List.mem_cons_self a l)
    simp only [List.cons_append, List.dropWhile_cons, ha, if_true]
    exact ih fun c hc => h c (List.mem_cons_of_mem a hc)

/-- Dropping stops at a head on which the predicate fails. -/
theorem dropWhile_cons_head_false (q : Char → Bool) (a : Char) (l : List Char)
    (h : q a = false) :
    List.dropWhile q (a :: l) = a :: l := by
  simp [List.dropWhile_cons, h]

/-- Taking while a predicate holds yields exactly a block on which it
holds everywhere, when the remainder starts with a failing character. -/
theorem takeWhile_append_all (q : Char → Bool) (l r : List Char)
    (hl : ∀ c ∈ l, q c = true)
    (hr : ∀ c, r.head? = some c → q c = false) :
    List.takeWhile q (l ++ r) = l := by
  induction l with
  | nil =>
    cases r with
    | nil => rfl
    | cons b r' => simp [List.takeWhile_cons, hr b rfl]
  | cons a l ih =>
    have ha : q a = true := hl a (List.mem_cons_self a l)
    simp [List.takeWhile_cons, ha,
      ih fun c hc => hl c (List.mem_cons_of_mem a hc)]

/-- Decimal digits are not JS whitespace. -/
theorem isJsWhitespace_eq_false_of_isDigit (c : Char) (h : c.isDigit = true) :
    isJsWhitespace c = false := by
  by_contra hw
  rw [Bool.not_eq_false] at hw
  simp only [isJsWhitespace, Bool.or_eq_true, decide_eq_true_eq] at hw
  rcases hw with ((((rfl | rfl) | rfl) | rfl) | rfl) | rfl <;>
    exact absurd h (by decide)

/-- A decimal digit is not the minus sign. -/
theorem isDigit_ne_minus (c : Char) (h : c.isDigit = true) : ¬ c = '-' := by
  intro e; subst e; exact absurd h (by decide)

/-- A decimal digit is not the plus sign. -/
theorem isDigit_ne_plus (c : Char) (h : c.isDigit = true) : ¬ c = '+' := by
  intro e; subst e; exact absurd h (by decide)

/-- On a nonempty digit block followed by a non-digit remainder,
`parseIntDigits` returns the signed value of the block. -/
theorem parseIntDigits_of_digits_garbage (d : Char) (ds rest : List Char)
    (sign : Int)
    (hdig : ∀ c ∈ d :: ds, c.isDigit = true)
    (hrest : ∀ c, rest.head? = some c → c.isDigit = false) :
    parseIntDigits ((d :: ds) ++ rest) sign =
      some (sign * (digitsToNat (d :: ds) : Int)) := by
  unfold parseIntDigits
  rw [takeWhile_append_all Char.isDigit (d :: ds) rest hdig hrest]
  simp [List.isEmpty]

/-- C1: for every non-success response received by submitVote or
fetchPollResults, the call rejects with an Error whose message is the
body's truthy `detail` value when the body decodes as JSON carrying one,
and otherwise the fallback "HTTP {status}: {statusText}"; in particular
a 404 with body carrying detail "Poll not found" yields message
"Poll not found", and a 500 with a non-JSON body yields message
"HTTP 500: Internal Server Error". -/
theorem submitVote_fetchPollResults_nonOk_error_message
    (transport : Request → FetchOutcome) (p o t : String) (r : Response)
    (hok : r.ok = false) :
    (transport (PollApi.submitVoteRequest p o t) = .response r →
      PollApi.submitVote transport p o t = .error (.error (errorMessageFor r)))
    ∧ (transport (PollApi.fetchPollResultsRequest p) = .response r →
      PollApi.fetchPollResults transport p = .error (.error (errorMessageFor r)))
    ∧ (∀ d, detailOf r = some d → d.truthy = true → errorMessageFor r = jsToString d)
    ∧ (detailOf r = none →
      errorMessageFor r = "HTTP " ++ toString r.status ++ ": " ++ r.statusText)
    ∧ errorMessageFor resp404 = "Poll not found"
    ∧ errorMessageFor resp500 = "HTTP 500: Internal Server Error" := by
  refine ⟨?_, ?_, ?_, ?_, rfl, rfl⟩
  · intro h
    simp [PollApi.submitVote, PollApi.submitVoteTrace, h, tryBody, hok, catchWrap]
  · intro h
    simp [PollApi.fetchPollResults, PollApi.fetchPollResultsTrace, h, tryBody, hok, catchWrap]
  · intro d hd ht
    rw [errorMessageFor_eq, hd]
    simp [ht]
  · intro hd
    rw [errorMessageFor_eq, hd]

/-- Witness for C1: the 404-with-detail and 500-non-JSON cases at
concrete transports. -/
theorem submitVote_fetchPollResults_nonOk_error_message_witness :
    PollApi.submitVote (fun _ => .response resp404) "1" "2" "tok" =
      .error (.error "Poll not found")
    ∧ PollApi.fetchPollResults (fun _ => .response resp500) "1" =
      .error (.error "HTTP 500: Internal Server Error") := by
  constructor
  · have h := submitVote_fetchPollResults_nonOk_error_message
      (fun _ => .response resp404) "1" "2" "tok" resp404 rfl
    have h1 := h.1 rfl
    rw [h.2.2.2.2.1] at h1
    exact h1
  · have h := submitVote_fetchPollResults_nonOk_error_message
      (fun _ => .response resp500) "1" "2" "tok" resp500 rfl
    have h1 := h.2.1 rfl
    rw [h.2.2.2.2.2] at h1
    exact h1

/-- C2 counterexample: the claim is false as stated.  A transport failure
whose thrown value is an Error instance (the usual case — `fetch` rejects
with a TypeError on connection refused) is re-thrown unchanged by the
`instanceof Error` branch, so its message does not begin with
"Network error: " (that string is 15 characters long). -/
theorem submitVote_transport_error_unwrapped :
    PollApi.submitVote (fun _ => .throw (.error "TypeError: Failed to fetch"))
      "1" "2" "tok" = .error (.error "TypeError: Failed to fetch")
    ∧ "TypeError: Failed to fetch".take 15 ≠ "Network error: " :=
  ⟨rfl, by decide⟩

/-- C2 (amended): a transport failure whose thrown value is not an Error
instance is wrapped into an error whose message is "Network error: "
followed by the string representation of the thrown value; a thrown
Error instance is re-thrown unchanged, keeping its own message. -/
theorem submitVote_fetchPollResults_network_error_wrapping
    (transport : Request → FetchOutcome) (p o t s m : String) :
    (transport (PollApi.submitVoteRequest p o t) = .throw (.other s) →
      PollApi.submitVote transport p o t =
        .error (.error ("Network error: " ++ s)))
    ∧ (transport (PollApi.fetchPollResultsRequest p) = .throw (.other s) →
      PollApi.fetchPollResults transport p =
        .error (.error ("Network error: " ++ s)))
    ∧ (transport (PollApi.submitVoteRequest p o t) = .throw (.error m) →
      PollApi.submitVote transport p o t = .error (.error m))
    ∧ (transport (PollApi.fetchPollResultsRequest p) = .throw (.error m) →
      PollApi.fetchPollResults transport p = .error (.error m)) := by
  refine ⟨?_, ?_, ?_, ?_⟩ <;> intro h <;>
    simp [PollApi.submitVote, PollApi.submitVoteTrace, PollApi.fetchPollResults,
      PollApi.fetchPollResultsTrace, h, tryBody, catchWrap]

/-- Witness for the amended C2: a non-Error thrown value gets the
"Network error: " wrapping. -/
theorem submitVote_fetchPollResults_network_error_wrapping_witness :
    PollApi.submitVote (fun _ => .throw (.other "connect ECONNREFUSED"))
      "1" "2" "tok" =
      .error (.error ("Network error: " ++ "connect ECONNREFUSED")) := by
  have h := submitVote_fetchPollResults_network_error_wrapping
    (fun _ => .throw (.other "connect ECONNREFUSED")) "1" "2" "tok"
    "connect ECONNREFUSED" ""
  exact h.1 rfl

/-- C3: when the option identifier parses as an integer n, the vote
request body carries n, and under the wire contract (the server echoes
that option id in the created VoteRecord) a successful submitVote call
returns the server payload verbatim, whose `option_id` equals the
base-10 parse of the supplied option identifier string. -/
theorem submitVote_success_returns_parsed_option_id
    (transport : Request → FetchOutcome) (p o t : String) (n : Int)
    (v : Json) (r : Response)
    (hparse : parseInt10 o = some n)
    (htr : transport (PollApi.submitVoteRequest p o t) = .response r)
    (hok : r.ok = true)
    (hjson : r.jsonResult = .ok v)
    (hecho : Json.lookupField v "option_id" = some (.num n)) :
    PollApi.submitVote transport p o t = .ok v
    ∧ (PollApi.submitVoteRequest p o t).body = some (stringifyVoteRequest (some n))
    ∧ Json.lookupField v "option_id" = some (.num n) := by
  refine ⟨?_, ?_, hecho⟩
  · simp [PollApi.submitVote, PollApi.submitVoteTrace, htr, tryBody, hok, hjson, catchWrap]
  · simp [PollApi.submitVoteRequest, hparse]

/-- Witness for C3: optionId "456" with a server echoing option_id 456. -/
theorem submitVote_success_returns_parsed_option_id_witness :
    PollApi.submitVote (fun _ => .response voteOkResponse) "123" "456" "tok" =
      .ok (.obj [("id", .num 1), ("user_id", .num 7), ("option_id", .num 456),
        ("created_at", .str "2025-01-01T00:00:00Z")]) := by
  have h := submitVote_success_returns_parsed_option_id
    (fun _ => .response voteOkResponse) "123" "456" "tok" 456
    (.obj [("id", .num 1), ("user_id", .num 7), ("option_id", .num 456),
      ("created_at", .str "2025-01-01T00:00:00Z")]) voteOkResponse
    rfl rfl rfl rfl rfl
  exact h.1

/-- C4: submitVote issues exactly one request: a POST to
http://localhost:8000/polls/{pollId}/vote with Content-Type
application/json and Authorization "Bearer {token}" (token verbatim),
whose body is the JSON serialization of the object carrying
`option_id = parseInt(optionId, 10)`; a parsable optionId puts that
integer in the body, an unparsable one puts the NaN serialization
(`null`) — no client-side validation rejects it. -/
theorem submitVote_issues_single_post_request
    (transport : Request → FetchOutcome) (p o t : String) :
    (PollApi.submitVoteRequest p o t).method = "POST"
    ∧ (PollApi.submitVoteRequest p o t).url =
        "http://localhost:8000/polls/" ++ p ++ "/vote"
    ∧ (PollApi.submitVoteRequest p o t).headers =
        [("Content-Type", "application/json"), ("Authorization", "Bearer " ++ t)]
    ∧ (PollApi.submitVoteRequest p o t).body =
        some (stringifyVoteRequest (parseInt10 o))
    ∧ (PollApi.submitVoteTrace transport p o t).2 = [PollApi.submitVoteRequest p o t]
    ∧ (∀ n, parseInt10 o = some n →
        (PollApi.submitVoteRequest p o t).body =
          some ("\x7b\"option_id\":" ++ toString n ++ "\x7d"))
    ∧ (parseInt10 o = none →
        (PollApi.submitVoteRequest p o t).body = some "\x7b\"option_id\":null\x7d") := by
  refine ⟨rfl, rfl, rfl, rfl, rfl, ?_, ?_⟩
  · intro n hn
    simp only [PollApi.submitVoteRequest]
    rw [hn]
    rfl
  · intro hn
    simp only [PollApi.submitVoteRequest]
    rw [hn]
    rfl

/-- Witness for C4: bodies for a parsable and an unparsable optionId. -/
theorem submitVote_issues_single_post_request_witness :
    (PollApi.submitVoteRequest "1" "2" "tok").body = some "\x7b\"option_id\":2\x7d"
    ∧ (PollApi.submitVoteRequest "1" "abc" "tok").body =
        some "\x7b\"option_id\":null\x7d" := by
  have h1 := submitVote_issues_single_post_request
    (fun _ => .throw (.other "")) "1" "2" "tok"
  have h2 := submitVote_issues_single_post_request
    (fun _ => .throw (.other "")) "1" "abc" "tok"
  exact ⟨h1.2.2.2.2.2.1 2 rfl, h2.2.2.2.2.2.2 rfl⟩

/-- C5: a successful fetchPollResults call returns the decoded server
payload verbatim: every field of the returned value — poll_id, question
and the results sequence, in server order — equals the server payload's
field; the client performs no reordering, filtering or aggregation. -/
theorem fetchPollResults_returns_server_payload_verbatim
    (transport : Request → FetchOutcome) (p : String) (r : Response) (v : Json)
    (htr : transport (PollApi.fetchPollResultsRequest p) = .response r)
    (hok : r.ok = true) (hjson : r.jsonResult = .ok v) :
    PollApi.fetchPollResults transport p = .ok v
    ∧ ∀ key, (PollApi.fetchPollResults transport p).toOption.bind
        (fun w => Json.lookupField w key) = Json.lookupField v key := by
  have h : PollApi.fetchPollResults transport p = .ok v := by
    simp [PollApi.fetchPollResults, PollApi.fetchPollResultsTrace, htr, tryBody,
      hok, hjson, catchWrap]
  exact ⟨h, fun key => by rw [h]; rfl⟩

/-- Witness for C5: a concrete two-option payload comes back verbatim. -/
theorem fetchPollResults_returns_server_payload_verbatim_witness :
    PollApi.fetchPollResults (fun _ => .response resultsOkResponse) "123" =
      .ok resultsPayload := by
  have h := fetchPollResults_returns_server_payload_verbatim
    (fun _ => .response resultsOkResponse) "123" resultsOkResponse resultsPayload
    rfl rfl rfl
  exact h.1

/-- C6: every request issued by fetchPollResults is a GET to
http://localhost:8000/polls/{pollId}/results carrying only the
Content-Type application/json header, with no body and no Authorization
header, and the call issues exactly that one request. -/
theorem fetchPollResults_issues_single_get_request
    (transport : Request → FetchOutcome) (p : String) :
    (PollApi.fetchPollResultsRequest p).method = "GET"
    ∧ (PollApi.fetchPollResultsRequest p).url =
        "http://localhost:8000/polls/" ++ p ++ "/results"
    ∧ (PollApi.fetchPollResultsRequest p).headers =
        [("Content-Type", "application/json")]
    ∧ (PollApi.fetchPollResultsRequest p).body = none
    ∧ (PollApi.fetchPollResultsTrace transport p).2 =
        [PollApi.fetchPollResultsRequest p] :=
  ⟨rfl, rfl, rfl, rfl, rfl⟩

/-- C7: two successive fetchPollResults calls with the same poll
identifier, under the precondition that the transport answers both
identical requests with the same successful response, return identical
PollResultSet content. -/
theorem fetchPollResults_idempotent_under_stable_transport
    (T1 T2 : Request → FetchOutcome) (p : String) (r : Response) (v : Json)
    (h1 : T1 (PollApi.fetchPollResultsRequest p) = .response r)
    (h2 : T2 (PollApi.fetchPollResultsRequest p) = .response r)
    (hok : r.ok = true) (hjson : r.jsonResult = .ok v) :
    PollApi.fetchPollResults T1 p = .ok v
    ∧ PollApi.fetchPollResults T2 p = .ok v
    ∧ PollApi.fetchPollResults T1 p = PollApi.fetchPollResults T2 p := by
  have e1 : PollApi.fetchPollResults T1 p = .ok v := by
    simp [PollApi.fetchPollResults, PollApi.fetchPollResultsTrace, h1, tryBody,
      hok, hjson, catchWrap]
  have e2 : PollApi.fetchPollResults T2 p = .ok v := by
    simp [PollApi.fetchPollResults, PollApi.fetchPollResultsTrace, h2, tryBody,
      hok, hjson, catchWrap]
  exact ⟨e1, e2, e1.trans e2.symm⟩

/-- Witness for C7: two calls against the same stable transport agree. -/
theorem fetchPollResults_idempotent_under_stable_transport_witness :
    PollApi.fetchPollResults (fun _ => .response resultsOkResponse) "123" =
      PollApi.fetchPollResults (fun _ => .response resultsOkResponse) "123" := by
  have h := fetchPollResults_idempotent_under_stable_transport
    (fun _ => .response resultsOkResponse) (fun _ => .response resultsOkResponse)
    "123" resultsOkResponse resultsPayload rfl rfl rfl rfl
  exact h.2.2

/-- C8: the standalone submitVote (src/submitVote.ts) and the standalone
fetchPollResults (src/fetchPollResults.ts) are extensionally equal to the
functions of the same names in the combined module (src/lib/poll-api.ts):
for every input and every transport behavior, the same outcome. -/
theorem standalone_files_equal_combined_module
    (transport : Request → FetchOutcome) (p o t : String) :
    PollApi.submitVote transport p o t = SubmitVoteFile.submitVote transport p o t
    ∧ PollApi.fetchPollResults transport p =
        FetchPollResultsFile.fetchPollResults transport p :=
  ⟨rfl, rfl⟩

/-- C9: in both functions, every value thrown inside the try block —
by the fetch call, by body decoding, or by the non-success branch — that
is an Error instance is re-thrown unchanged by the outer catch; the
"Network error: " wrapping is applied only to non-Error thrown values. -/
theorem try_block_error_rethrown_nonerror_wrapped
    (transport : Request → FetchOutcome) (p o t m s : String) :
    (tryBody (transport (PollApi.submitVoteRequest p o t)) = .error (.error m) →
      PollApi.submitVote transport p o t = .error (.error m))
    ∧ (tryBody (transport (PollApi.submitVoteRequest p o t)) = .error (.other s) →
      PollApi.submitVote transport p o t =
        .error (.error ("Network error: " ++ s)))
    ∧ (tryBody (transport (PollApi.fetchPollResultsRequest p)) = .error (.error m) →
      PollApi.fetchPollResults transport p = .error (.error m))
    ∧ (tryBody (transport (PollApi.fetchPollResultsRequest p)) = .error (.other s) →
      PollApi.fetchPollResults transport p =
        .error (.error ("Network error: " ++ s))) := by
  refine ⟨?_, ?_, ?_, ?_⟩ <;> intro h <;>
    simp [PollApi.submitVote, PollApi.submitVoteTrace, PollApi.fetchPollResults,
      PollApi.fetchPollResultsTrace, h, catchWrap]

/-- Witness for C9: a SyntaxError thrown by body decoding in the success
branch is re-thrown unchanged. -/
theorem try_block_error_rethrown_nonerror_wrapped_witness :
    PollApi.submitVote (fun _ => .response jsonSyntaxErrorResponse) "1" "2" "tok" =
      .error (.error "Unexpected end of JSON input") := by
  have h := try_block_error_rethrown_nonerror_wrapped
    (fun _ => .response jsonSyntaxErrorResponse) "1" "2" "tok"
    "Unexpected end of JSON input" ""
  exact h.1 rfl

/-- C10: an option identifier made of optional JS whitespace, an optional
sign, a nonempty block of decimal digits and arbitrary trailing
characters starting with a non-digit parses — without any client-side
error — to the signed value of the digit block (parseInt truncates at the
first non-digit), and submitVote sends exactly that integer as option_id
in the request body. -/
theorem submitVote_parseInt_truncates_trailing_garbage
    (p t : String) (ws sgn ds rest : List Char)
    (hws : ∀ c ∈ ws, isJsWhitespace c = true)
    (hsgn : sgn = [] ∨ sgn = ['+'] ∨ sgn = ['-'])
    (hds : ds ≠ [])
    (hdig : ∀ c ∈ ds, c.isDigit = true)
    (hrest1 : ∀ c ∈ rest.take 1, c.isDigit = false) :
    parseInt10 (String.mk (ws ++ (sgn ++ (ds ++ rest)))) =
      some ((if sgn = ['-'] then (-1 : Int) else 1) * (digitsToNat ds : Int))
    ∧ (PollApi.submitVoteRequest p (String.mk (ws ++ (sgn ++ (ds ++ rest)))) t).body =
      some (stringifyVoteRequest
        (some ((if sgn = ['-'] then (-1 : Int) else 1) * (digitsToNat ds : Int)))) := by
  obtain ⟨d, ds', rfl⟩ : ∃ d ds', ds = d :: ds' := by
    cases ds with
    | nil => exact absurd rfl hds
    | cons d ds' => exact ⟨d, ds', rfl⟩
  have hd : d.isDigit = true := hdig d (List.mem_cons_self d ds')
  have hrest' : ∀ c, rest.head? = some c → c.isDigit = false := by
    intro c hc
    cases rest with
    | nil => exact absurd hc (by simp)
    | cons b r' =>
      simp only [List.head?_cons, Option.some.injEq] at hc
      subst hc
      exact hrest1 b (by simp)
  have hfirst : parseInt10 (String.mk (ws ++ (sgn ++ ((d :: ds') ++ rest)))) =
      some ((if sgn = ['-'] then (-1 : Int) else 1) * (digitsToNat (d :: ds') : Int)) := by
    unfold parseInt10
    have htl : (String.mk (ws ++ (sgn ++ ((d :: ds') ++ rest)))).toList =
        ws ++ (sgn ++ ((d :: ds') ++ rest)) := rfl
    rw [htl, dropWhile_append_all isJsWhitespace ws _ hws]
    rcases hsgn with rfl | rfl | rfl
    · simp only [List.nil_append, List.cons_append]
      rw [dropWhile_cons_head_false isJsWhitespace d _
        (isJsWhitespace_eq_false_of_isDigit d hd)]
      show (if d = '-' then parseIntDigits (ds' ++ rest) (-1)
        else if d = '+' then parseIntDigits (ds' ++ rest) 1
        else parseIntDigits (d :: (ds' ++ rest)) 1) = _
      rw [if_neg (isDigit_ne_minus d hd), if_neg (isDigit_ne_plus d hd),
        ← List.cons_append, parseIntDigits_of_digits_garbage d ds' rest 1 hdig hrest']
      simp
    · simp only [List.cons_append, List.nil_append]
      rw [dropWhile_cons_head_false isJsWhitespace '+' _ (by decide)]
      show (if ('+' : Char) = '-' then parseIntDigits (d :: (ds' ++ rest)) (-1)
        else if ('+' : Char) = '+' then parseIntDigits (d :: (ds' ++ rest)) 1
        else parseIntDigits ('+' :: (d :: (ds' ++ rest))) 1) = _
      rw [if_neg (by decide : ¬ ('+' : Char) = '-'), if_pos (rfl : ('+' : Char) = '+'),
        ← List.cons_append, parseIntDigits_of_digits_garbage d ds' rest 1 hdig hrest']
      simp
    · simp only [List.cons_append, List.nil_append]
      rw [dropWhile_cons_head_false isJsWhitespace '-' _ (by decide)]
      show (if ('-' : Char) = '-' then parseIntDigits (d :: (ds' ++ rest)) (-1)
        else if ('-' : Char) = '+' then parseIntDigits (d :: (ds' ++ rest)) 1
        else parseIntDigits ('-' :: (d :: (ds' ++ rest))) 1) = _
      rw [if_pos (rfl : ('-' : Char) = '-'), ← List.cons_append,
        parseIntDigits_of_digits_garbage d ds' rest (-1) hdig hrest']
      simp
  refine ⟨hfirst, ?_⟩
  show some (stringifyVoteRequest (parseInt10 _)) = _
  rw [hfirst]

/-- Witness for C10: the spec's example "12abc" parses to 12 and the
vote body carries 12. -/
theorem submitVote_parseInt_truncates_trailing_garbage_witness :
    parseInt10 (String.mk ['1', '2', 'a', 'b', 'c']) = some 12
    ∧ (PollApi.submitVoteRequest "1" (String.mk ['1', '2', 'a', 'b', 'c']) "tok").body =
        some (stringifyVoteRequest (some 12)) := by
  have h := submitVote_parseInt_truncates_trailing_garbage "1" "tok"
    [] [] ['1', '2'] ['a', 'b', 'c'] (by decide) (Or.inl rfl) (by decide)
    (by decide) (by decide)
  have e : ((if ([] : List Char) = ['-'] then (-1 : Int) else 1) *
      (digitsToNat ['1', '2'] : Int)) = 12 := by decide
  rw [e] at h
  exact h
